import Mathlib

/-!
Verification of the subscription dispatch and scheduling subsystem of the
go-messaging repository, shallowly embedded in Lean 4.

Conventions of the embedding:
* Go `time.Time` instants and `time.Duration` values are modelled as
  unbounded `Int` nanoseconds where the rate limiter is concerned
  (Go durations are int64 nanoseconds; the arithmetic here stays far from
  overflow for realistic times), and as `Int` seconds for the SQL due-query
  (`INTERVAL '1 minute' * n` is `60 * n` seconds).
* Go `error` values are the inductive `GoError`; `gorm.ErrRecordNotFound`
  is the distinguished constructor `GoError.recordNotFound`, and
  `fmt.Errorf("...: %w", err)` wrapping is `wrapErr`.
* Calls a component makes on its collaborators (Telegram send, log store
  append, MarkNotified) are recorded in an explicit `DispatchEvent` trace;
  the outcomes those collaborators return are supplied by an environment
  record, one per subscription, mirroring the interfaces the Go service
  is wired against.
-/

/-! ## Rate limiter (src/app/model/RateLimiter.go)

Constants from the Go source:
`RATE_LIMIT_MESSAGES = 10`, `RATE_LIMIT_WINDOW = time.Minute`,
`MIN_MESSAGE_INTERVAL = 1 * time.Second`, all in nanoseconds here. -/

def RATE_LIMIT_MESSAGES : Int := 10

def RATE_LIMIT_WINDOW : Int := 60000000000

def MIN_MESSAGE_INTERVAL : Int := 1000000000

/-- `UserLimiter` from RateLimiter.go: per-user record of the last (admitted)
message time, the count inside the current window, and the window start. -/
structure UserLimiter where
  LastMessage : Int
  MessageCount : Int
  WindowStart : Int
deriving DecidableEq, Repr

/-- The `users map[int64]*UserLimiter` field of `RateLimiter`, as a function
from user id to the optional per-user record (`none` = no entry). -/
def RateLimiterMap := Int → Option UserLimiter

/-- The empty map a fresh `NewRateLimiter` starts from. -/
def emptyRateLimiter : RateLimiterMap := fun _ => none

/-- The `(allowed, reason)` pair returned by `IsAllowed`. `allowed` is the
admission; `tooFast` stands for the literal denial string
"Please wait 1 second between messages", and `limitExceeded remaining` for
"Rate limit exceeded! Try again in %v" formatted from
`remaining = RATE_LIMIT_WINDOW - now.Sub(user.WindowStart)` (the Go code
rounds `remaining` to seconds only when printing it). -/
inductive RLReply where
  | allowed
  | tooFast
  | limitExceeded (remaining : Int)
deriving DecidableEq, Repr

/-- `RateLimiter.IsAllowed(userID)` from RateLimiter.go, with `now`
(`time.Now()`) made an explicit argument. Returns the reply together with
the updated map (the Go method mutates `rl.users` in place; the mutex
serializes calls, so one call is one atomic step on the map).
Tracing the source: a missing entry is created with count 1 and admitted;
an attempt closer than `MIN_MESSAGE_INTERVAL` to `LastMessage` is denied
before anything is written; a window older than `RATE_LIMIT_WINDOW` is
reset through the shared pointer; a full window denies with the remaining
time; otherwise `LastMessage` and `MessageCount` are updated and the
attempt is admitted. -/
def IsAllowed (rl : RateLimiterMap) (userID : Int) (now : Int) :
    RLReply × RateLimiterMap :=
  match rl userID with
  | none =>
      (.allowed, fun u => if u = userID then
        some { LastMessage := now, MessageCount := 1, WindowStart := now }
        else rl u)
  | some user0 =>
      if now - user0.LastMessage < MIN_MESSAGE_INTERVAL then
        (.tooFast, rl)
      else
        -- "Reset window if needed" (the write goes through the pointer,
        -- so it lands in the map even before the admission is decided)
        let user := if now - user0.WindowStart > RATE_LIMIT_WINDOW then
            { user0 with MessageCount := 0, WindowStart := now }
          else user0
        if user.MessageCount ≥ RATE_LIMIT_MESSAGES then
          (.limitExceeded (RATE_LIMIT_WINDOW - (now - user.WindowStart)),
           fun u => if u = userID then some user else rl u)
        else
          (.allowed,
           fun u => if u = userID then
             some { user with LastMessage := now,
                              MessageCount := user.MessageCount + 1 }
             else rl u)

/-- Run a sequence of `IsAllowed` checks for one user at the given times,
collecting the replies. -/
def runLimiter (rl : RateLimiterMap) (userID : Int) :
    List Int → List RLReply × RateLimiterMap
  | [] => ([], rl)
  | t :: ts =>
      let step := IsAllowed rl userID t
      let rest := runLimiter step.2 userID ts
      (step.1 :: rest.1, rest.2)

/-- The replies a fresh rate limiter gives user 1 for checks at `ts`. -/
def replies (ts : List Int) : List RLReply :=
  (runLimiter emptyRateLimiter 1 ts).1

/-- The subsequence of check times whose check was admitted, starting from a
fresh rate limiter. -/
def admittedTimes (rl : RateLimiterMap) (userID : Int) :
    List Int → List Int
  | [] => []
  | t :: ts =>
      let step := IsAllowed rl userID t
      if step.1 = .allowed then t :: admittedTimes step.2 userID ts
      else admittedTimes step.2 userID ts

/-! ## Errors (Go `error` values) -/

/-- Go `error` values: `gorm.ErrRecordNotFound` is distinguished because
`GetDueSubscriptions` compares against it; every other error is its
message string. -/
inductive GoError where
  | recordNotFound
  | custom (msg : String)
deriving DecidableEq, Repr

/-- The message an error renders to (`err.Error()`);
`gorm.ErrRecordNotFound.Error()` is "record not found". -/
def errString : GoError → String
  | .recordNotFound => "record not found"
  | .custom s => s

/-- `fmt.Errorf("<pre>: %w", err)`. -/
def wrapErr (pre : String) (e : GoError) : GoError :=
  .custom (pre ++ ": " ++ errString e)

/-! ## Entities (src/app/entity/entity.go) -/

/-- `NotificationType` (the notification category row). Timestamps and the
relationship slices play no part in the verified logic and are omitted. -/
structure NotificationType where
  ID : Int
  Code : String
  Name : String
  DefaultIntervalMinutes : Int
  IsActive : Bool
deriving DecidableEq, Repr

/-- `SubscriptionPreferences`. Only `Interval` (minutes, `json:"interval,omitempty"`)
enters the due-selection SQL; `Currency`, `Keywords`, `Threshold` and
`Settings` feed only the content generators, whose outcome the dispatch
environment supplies wholesale, so they are not repeated here. -/
structure SubscriptionPreferences where
  Interval : Int
deriving DecidableEq, Repr

/-- `Subscription`. `LastNotifiedAt` is the nullable timestamp (seconds);
`CreatedAt`/`UpdatedAt` and the relationship fields are not used by the
dispatch or due-selection logic. -/
structure Subscription where
  ID : Int
  UserID : Int
  ChatID : Int
  NotificationTypeID : Int
  IsActive : Bool
  Preferences : SubscriptionPreferences
  LastNotifiedAt : Option Int
deriving DecidableEq, Repr

/-- The `interval` key of the `preferences` jsonb column.
`SubscriptionPreferences.Value()` serializes with `json.Marshal` under
`json:"interval,omitempty"` (and maps the all-zero struct to `{}`), so the
key is present in the stored jsonb exactly when the Go field is nonzero. -/
def jsonbInterval (p : SubscriptionPreferences) : Option Int :=
  if p.Interval = 0 then none else some p.Interval

/-! ## Message validation (src/app/model/MessageValidator.go)

Go `len(message)` is the byte length of the UTF-8 string, embedded as
`String.utf8ByteSize`. -/

def MAX_MESSAGE_LENGTH : Nat := 4096

/-- `ValidateMessageString`: `none` when valid, `some err` otherwise. -/
def ValidateMessageString (message : String) : Option GoError :=
  if message.utf8ByteSize = 0 then
    some (.custom "message cannot be empty")
  else if message.utf8ByteSize > MAX_MESSAGE_LENGTH then
    some (.custom ("message too long: " ++ toString message.utf8ByteSize ++
      " characters (max " ++ toString MAX_MESSAGE_LENGTH ++ ")"))
  else none

/-! ## Due selection
(GormSubscriptionRepository.GetDueForNotification, src/unnamed/part_006;
SubscriptionServiceImpl.GetDueSubscriptions, src/unnamed/part_012;
GormNotificationTypeRepository.GetByCode, src/app/repository/user_repository.go) -/

/-- The `COALESCE(CAST(preferences->>'interval' AS INTEGER),
(SELECT default_interval_minutes FROM notification_types WHERE id =
subscriptions.notification_type_id))` expression of the due query: the
jsonb interval when the key is present, else the owning category's default
(`none` when the key is absent and no `notification_types` row matches,
which in SQL makes the whole comparison NULL, i.e. not satisfied). -/
def effectiveInterval (categories : List NotificationType)
    (sub : Subscription) : Option Int :=
  (jsonbInterval sub.Preferences).orElse fun _ =>
    (categories.find? fun nt => nt.ID = sub.NotificationTypeID).map
      fun nt => nt.DefaultIntervalMinutes

/-- The per-row WHERE clause of `GetDueForNotification` (minus the
`notification_type_id = ?` equality, applied at the query below):
`is_active = true AND (last_notified_at IS NULL OR last_notified_at <=
NOW() - INTERVAL '1 minute' * COALESCE(...))`. `now` is `NOW()` in
seconds; a NULL effective interval leaves the comparison unsatisfied. -/
def isDue (categories : List NotificationType) (now : Int)
    (sub : Subscription) : Bool :=
  sub.IsActive &&
    match sub.LastNotifiedAt with
    | none => true
    | some last =>
        match effectiveInterval categories sub with
        | none => false
        | some eff => decide (last ≤ now - 60 * eff)

/-! ## Dispatch environment

The dispatch service is wired against `SubscriptionService`,
`NotificationLogService` and `TelegramNotificationSender`. The stores'
contents and the collaborators' outcomes are an explicit environment; the
calls the service makes are an explicit event trace. -/

/-- One observable collaborator call made by the dispatch pipeline. -/
inductive DispatchEvent where
  | sendMessage (chatID : Int) (message : String)
  | logNotification (subscriptionID : Int) (message : String)
      (status : String) (errorMessage : Option String)
  | markNotified (subscriptionID : Int)
deriving DecidableEq, Repr

/-- Collaborator outcomes for one subscription's pipeline run:
`content` is what `GetNotificationContent` comes back with (its text
depends on external fetches and `time.Now()`, its error on the fetch, so
both are environment); `sendErr` is `telegramService.SendMessage`'s return;
`logErr` is `logService.LogNotification`'s return (the dispatch code only
prints it); `markErr` is `subscriptionService.MarkNotified`'s return. -/
structure SubEnv where
  content : Except GoError String
  sendErr : Option GoError
  logErr : Option GoError
  markErr : Option GoError

/-- The whole environment of one `DispatchNotification` call:
the `notification_types` rows and the `subscriptions` rows, a possible
store failure for each of the two queries, the query time, and the
per-subscription collaborator outcomes keyed by subscription id. -/
structure DispatchEnv where
  categories : List NotificationType
  categoriesErr : Option GoError
  subscriptions : List Subscription
  dueErr : Option GoError
  now : Int
  subEnv : Int → SubEnv

/-- `GormNotificationTypeRepository.GetByCode`: `First` on
`code = ?` — the first matching row, `gorm.ErrRecordNotFound` when none,
a store error when the query itself fails. -/
def GetByCode (env : DispatchEnv) (code : String) :
    Except GoError NotificationType :=
  match env.categoriesErr with
  | some e => .error e
  | none =>
      match env.categories.find? fun nt => nt.Code = code with
      | some nt => .ok nt
      | none => .error .recordNotFound

/-- `GormSubscriptionRepository.GetDueForNotification`: the rows of
`subscriptions` passing `notification_type_id = ? AND` the due predicate. -/
def GetDueForNotification (env : DispatchEnv) (notificationTypeID : Int) :
    Except GoError (List Subscription) :=
  match env.dueErr with
  | some e => .error e
  | none => .ok (env.subscriptions.filter fun sub =>
      sub.NotificationTypeID = notificationTypeID &&
        isDue env.categories env.now sub)

/-- `SubscriptionServiceImpl.GetDueSubscriptions`: resolves the category by
code — mapping `gorm.ErrRecordNotFound` to an empty result with no error —
then queries the due rows, wrapping either failure. -/
def GetDueSubscriptions (env : DispatchEnv) (code : String) :
    Except GoError (List Subscription) :=
  match GetByCode env code with
  | .error .recordNotFound => .ok []
  | .error e => .error (wrapErr "failed to get notification type" e)
  | .ok notificationType =>
      match GetDueForNotification env notificationType.ID with
      | .error e => .error (wrapErr "failed to get due subscriptions" e)
      | .ok subs => .ok subs

/-! ## Dispatch pipeline (src/app/service/notification_dispatch_service.go) -/

/-- `GetNotificationContent`: the `switch` over the five known type codes;
each known code's generator runs against external data and the clock, so
its outcome is the environment's `content`; any other code is the
"unknown notification type" error before any generation. -/
def GetNotificationContent (se : SubEnv) (notificationTypeCode : String) :
    Except GoError String :=
  match notificationTypeCode with
  | "coinbase" => se.content
  | "news" => se.content
  | "weather" => se.content
  | "price_alert" => se.content
  | "custom" => se.content
  | _ => .error (.custom ("unknown notification type: " ++ notificationTypeCode))

/-- `sendNotificationToSubscription`: validate the message length (a
failure is logged as "failed" and returned without any send); send via
Telegram (a failure is logged as "failed" and returned wrapped); log the
success as "sent" (a log failure is only printed, not returned). The
event list records the collaborator calls in program order. -/
def sendNotificationToSubscription (se : SubEnv) (subscription : Subscription)
    (message : String) : Option GoError × List DispatchEvent :=
  match ValidateMessageString message with
  | some err =>
      (some err,
       [.logNotification subscription.ID message "failed" (some (errString err))])
  | none =>
      match se.sendErr with
      | some err =>
          (some (wrapErr "failed to send telegram message" err),
           [.sendMessage subscription.ChatID message,
            .logNotification subscription.ID message "failed" (some (errString err))])
      | none =>
          (none,
           [.sendMessage subscription.ChatID message,
            .logNotification subscription.ID message "sent" none])

/-- `processSubscriptionNotification`: generate content (failure returns
before any collaborator call), send it, and only when the send pipeline
returned nil, call `MarkNotified` (whose own failure is returned wrapped,
after the call was already made). -/
def processSubscriptionNotification (se : SubEnv) (subscription : Subscription)
    (notificationTypeCode : String) : Option GoError × List DispatchEvent :=
  match GetNotificationContent se notificationTypeCode with
  | .error err => (some (wrapErr "failed to get notification content" err), [])
  | .ok content =>
      let sent := sendNotificationToSubscription se subscription content
      match sent.1 with
      | some err => (some (wrapErr "failed to send notification" err), sent.2)
      | none =>
          match se.markErr with
          | some err =>
              (some (wrapErr "failed to mark subscription as notified" err),
               sent.2 ++ [.markNotified subscription.ID])
          | none => (none, sent.2 ++ [.markNotified subscription.ID])

/-- The `for _, subscription := range subscriptions` loop of
`DispatchNotification`: every subscription is processed; a failure is only
printed while the loop moves on; `successCount` tallies the successes. -/
def dispatchLoop (env : DispatchEnv) (notificationTypeCode : String) :
    List Subscription → Int × List DispatchEvent
  | [] => (0, [])
  | subscription :: rest =>
      let proc := processSubscriptionNotification (env.subEnv subscription.ID)
        subscription notificationTypeCode
      let tail := dispatchLoop env notificationTypeCode rest
      ((if proc.1 = none then 1 else 0) + tail.1, proc.2 ++ tail.2)

/-- `NotificationDispatchServiceImpl.DispatchNotification`: fetch the due
subscriptions (a store failure is returned wrapped), return nil on an
empty list, and otherwise run every subscription's pipeline and return
nil regardless of per-subscription outcomes. -/
def DispatchNotification (env : DispatchEnv) (notificationTypeCode : String) :
    Option GoError × List DispatchEvent :=
  match GetDueSubscriptions env notificationTypeCode with
  | .error e => (some (wrapErr "failed to get due subscriptions" e), [])
  | .ok subscriptions =>
      if subscriptions.isEmpty then (none, [])
      else (none, (dispatchLoop env notificationTypeCode subscriptions).2)

/-- `DispatchToSubscription`: direct, scheduling-independent delivery. -/
def DispatchToSubscription (se : SubEnv) (subscription : Subscription)
    (message : String) : Option GoError × List DispatchEvent :=
  sendNotificationToSubscription se subscription message

/-! ## Scheduler
(src/app/internal/scheduler/notification_scheduler.go)

`runNotificationSchedule` is a `for { select { case <-ctx.Done(): return;
case <-ticker.C: DispatchNotification(...) } }` loop. Each iteration of
the loop observes exactly one select resolution; the input list below is
the sequence of resolutions the Go runtime hands the loop (when both
channels are ready the runtime picks one nondeterministically, so the
list quantifies over every possible interleaving of ticks and the
observation of cancellation). A tick runs `DispatchNotification` to
completion inside the iteration — an in-flight dispatch is never cut
short — and the loop continues whether or not it returned an error;
observing `ctxDone` returns from the loop, after which nothing runs. -/

/-- One select resolution observed by a scheduler loop iteration. -/
inductive SchedEvent where
  | ctxDone
  | tick
deriving DecidableEq, Repr

/-- `runNotificationSchedule` for one category: the list of completed
`DispatchNotification` results, one per tick observed before cancellation. -/
def runNotificationSchedule (env : DispatchEnv) (notificationType : String) :
    List SchedEvent → List (Option GoError × List DispatchEvent)
  | [] => []
  | .ctxDone :: _ => []
  | .tick :: rest =>
      DispatchNotification env notificationType ::
        runNotificationSchedule env notificationType rest

/-- The `schedule` map `NewNotificationScheduler` installs; `Start` spawns
one `runNotificationSchedule` goroutine per entry, all sharing one `ctx`. -/
def defaultSchedule : List (String × Int) :=
  [("coinbase", 1), ("news", 2), ("weather", 4), ("price_alert", 5),
   ("custom", 6)]

/-! ## Spec-side definitions for refinement comparison

These two definitions follow the specification text, not the source, and
exist only to be compared with `effectiveInterval` / `isDue`. -/

/-- The effective interval as the spec words it:
"preferences.interval if present and > 0, else category.default_interval". -/
def specEffectiveInterval (categories : List NotificationType)
    (sub : Subscription) : Option Int :=
  if sub.Preferences.Interval > 0 then some sub.Preferences.Interval
  else (categories.find? fun nt => nt.ID = sub.NotificationTypeID).map
    fun nt => nt.DefaultIntervalMinutes

/-- The due predicate with the spec-side effective interval substituted. -/
def specIsDue (categories : List NotificationType) (now : Int)
    (sub : Subscription) : Bool :=
  sub.IsActive &&
    match sub.LastNotifiedAt with
    | none => true
    | some last =>
        match specEffectiveInterval categories sub with
        | none => false
        | some eff => decide (last ≤ now - 60 * eff)

/-! ## Concrete fixtures used by counterexamples and witnesses -/

/-- Attempt times (nanoseconds): one attempt at 0 s and one per second from
52 s through 70 s, all spaced at least one second apart. -/
def cexTimes : List Int :=
  [0, 52, 53, 54, 55, 56, 57, 58, 59, 60, 61, 62, 63, 64, 65, 66, 67,
   68, 69, 70].map (· * 1000000000)

/-- Attempt times (nanoseconds) for the fixed-window witness: 0 s, then
every 2 s from 2 s through 22 s (12 attempts, all inside one window). -/
def witnessTimes : List Int :=
  [2, 4, 6, 8, 10, 12, 14, 16, 18, 20, 22].map (· * 1000000000)

/-- A rate-limiter map holding one record for user 7, last admitted at 0. -/
def rlUser7 : RateLimiterMap :=
  fun u =>
    if u = 7 then
      some { LastMessage := 0, MessageCount := 1, WindowStart := 0 }
    else none

/-- The "custom" category, id 1, default interval 60 minutes, active. -/
def catCustom : NotificationType :=
  { ID := 1, Code := "custom", Name := "Custom", DefaultIntervalMinutes := 60,
    IsActive := true }

/-- The "custom" category with `is_active = false`. -/
def catCustomInactive : NotificationType :=
  { catCustom with IsActive := false }

/-- A subscription to category 1, never notified, no interval override. -/
def subW : Subscription :=
  { ID := 5, UserID := 2, ChatID := 77, NotificationTypeID := 1,
    IsActive := true, Preferences := { Interval := 0 }, LastNotifiedAt := none }

/-- A subscription whose preference interval is negative (-5 minutes) and
whose last notification was 1800 s (30 min) before `now = 100000`. -/
def subNeg : Subscription :=
  { ID := 6, UserID := 2, ChatID := 77, NotificationTypeID := 1,
    IsActive := true, Preferences := { Interval := -5 },
    LastNotifiedAt := some 98200 }

/-- A second subscription to category 1, last notified 1000 s before
`now = 100000` (well inside the 60-minute default interval). -/
def subRecent : Subscription :=
  { ID := 8, UserID := 3, ChatID := 88, NotificationTypeID := 1,
    IsActive := true, Preferences := { Interval := 0 },
    LastNotifiedAt := some 99000 }

/-- A third subscription to category 1, never notified. -/
def subB : Subscription :=
  { ID := 9, UserID := 4, ChatID := 99, NotificationTypeID := 1,
    IsActive := true, Preferences := { Interval := 0 }, LastNotifiedAt := none }

/-- Collaborator outcomes where everything succeeds and the generated
content is "hello". -/
def seOK : SubEnv :=
  { content := .ok "hello", sendErr := none, logErr := none, markErr := none }

/-- Collaborator outcomes where the delivery send succeeds but the
success-log write fails. -/
def seLogFail : SubEnv :=
  { seOK with logErr := some (.custom "db down") }

/-- Collaborator outcomes where the Telegram send fails. -/
def seSendFail : SubEnv :=
  { seOK with sendErr := some (.custom "telegram: 502") }

/-- An environment whose category store holds no rows at all. -/
def envUnknown : DispatchEnv :=
  { categories := [], categoriesErr := none, subscriptions := [],
    dueErr := none, now := 100000, subEnv := fun _ => seOK }

/-- An environment whose only category is the inactive "custom" row, with
one due subscription and all collaborators succeeding. -/
def envInactive : DispatchEnv :=
  { categories := [catCustomInactive], categoriesErr := none,
    subscriptions := [subW], dueErr := none, now := 100000,
    subEnv := fun _ => seOK }

/-- An environment for the due-query witness: the active "custom" category,
one never-notified subscription and one recently notified one. -/
def envC5 : DispatchEnv :=
  { categories := [catCustom], categoriesErr := none,
    subscriptions := [subW, subRecent], dueErr := none, now := 100000,
    subEnv := fun _ => seOK }

/-- An environment with two due subscriptions where the first one's
Telegram send fails and the second one's collaborators all succeed. -/
def envC6 : DispatchEnv :=
  { categories := [catCustom], categoriesErr := none,
    subscriptions := [subW, subB], dueErr := none, now := 100000,
    subEnv := fun id => if id = subW.ID then seSendFail else seOK }

def spacedOK : List Int → Bool
  | [] => true
  | [_] => true
  | a :: b :: ts => (a + MIN_MESSAGE_INTERVAL ≤ b) && spacedOK (b :: ts)

/-!
## Theorems

Helper lemmas first, then one theorem (with counterexample and witness
where called for) per verified claim.
-/

/-- A user with no record is admitted and a fresh record with count 1 is
created. -/
theorem isAllowed_fresh (rl : RateLimiterMap) (uid t : Int)
    (h : rl uid = none) :
    IsAllowed rl uid t =
      (.allowed, fun u => if u = uid then
        some { LastMessage := t, MessageCount := 1, WindowStart := t }
        else rl u) := by
  simp [IsAllowed, h]

/-- An attempt less than `MIN_MESSAGE_INTERVAL` after the recorded last
message is denied "too fast" and the map is untouched. -/
theorem isAllowed_tooFast (rl : RateLimiterMap) (uid t : Int)
    (u : UserLimiter) (h : rl uid = some u)
    (hfast : t - u.LastMessage < MIN_MESSAGE_INTERVAL) :
    IsAllowed rl uid t = (.tooFast, rl) := by
  simp [IsAllowed, h, hfast]

/-- An attempt inside the current window with the counter at or over the
cap is denied with the remaining window time, the record unchanged. -/
theorem isAllowed_limited (rl : RateLimiterMap) (uid t l c w : Int)
    (h : rl uid = some { LastMessage := l, MessageCount := c, WindowStart := w })
    (hf : MIN_MESSAGE_INTERVAL ≤ t - l) (hw : t - w ≤ RATE_LIMIT_WINDOW)
    (hc : RATE_LIMIT_MESSAGES ≤ c) :
    IsAllowed rl uid t =
      (.limitExceeded (RATE_LIMIT_WINDOW - (t - w)),
       fun u => if u = uid then
         some { LastMessage := l, MessageCount := c, WindowStart := w }
         else rl u) := by
  have h1 : ¬ (t - l < MIN_MESSAGE_INTERVAL) := by omega
  have h2 : ¬ (t - w > RATE_LIMIT_WINDOW) := by omega
  simp [IsAllowed, h, h1, h2, hc]

/-- An attempt inside the current window with room in the counter is
admitted; the record gets the new last-message time and count. -/
theorem isAllowed_underCap (rl : RateLimiterMap) (uid t l c w : Int)
    (h : rl uid = some { LastMessage := l, MessageCount := c, WindowStart := w })
    (hf : MIN_MESSAGE_INTERVAL ≤ t - l) (hw : t - w ≤ RATE_LIMIT_WINDOW)
    (hc : c < RATE_LIMIT_MESSAGES) :
    IsAllowed rl uid t =
      (.allowed, fun u => if u = uid then
        some { LastMessage := t, MessageCount := c + 1, WindowStart := w }
        else rl u) := by
  have h1 : ¬ (t - l < MIN_MESSAGE_INTERVAL) := by omega
  have h2 : ¬ (t - w > RATE_LIMIT_WINDOW) := by omega
  have h3 : ¬ (RATE_LIMIT_MESSAGES ≤ c) := by omega
  simp [IsAllowed, h, h1, h2, h3]

/-- Window invariant of `IsAllowed`: starting from a record with count
`c ≤ 10`, a spaced run of attempts all inside the record's window is
admitted until the counter reaches the cap and denied with the remaining
window time from then on. -/
theorem runLimiter_full_window (ts : List Int) :
    ∀ (rl : RateLimiterMap) (uid l c w : Int),
    rl uid = some { LastMessage := l, MessageCount := c, WindowStart := w } →
    0 ≤ c → c ≤ RATE_LIMIT_MESSAGES →
    (∀ t ∈ ts, t - w ≤ RATE_LIMIT_WINDOW) →
    spacedOK (l :: ts) = true →
    (runLimiter rl uid ts).1 =
      (ts.take (RATE_LIMIT_MESSAGES - c).toNat).map (fun _ => RLReply.allowed) ++
      (ts.drop (RATE_LIMIT_MESSAGES - c).toNat).map
        (fun t => RLReply.limitExceeded (RATE_LIMIT_WINDOW - (t - w))) := by
  induction ts with
  | nil =>
      intro rl uid l c w hrl hc0 hc10 hwin hsp
      simp [runLimiter]
  | cons t ts ih =>
      intro rl uid l c w hrl hc0 hc10 hwin hsp
      have hMpos : (0:Int) < MIN_MESSAGE_INTERVAL := by norm_num [MIN_MESSAGE_INTERVAL]
      have hlt : l + MIN_MESSAGE_INTERVAL ≤ t := by
        cases ts with
        | nil => simpa [spacedOK] using hsp
        | cons t2 ts2 =>
            have := hsp
            simp only [spacedOK, Bool.and_eq_true, decide_eq_true_eq] at this
            exact this.1
      have hspTail : spacedOK (t :: ts) = true := by
        cases ts with
        | nil => simp [spacedOK]
        | cons t2 ts2 =>
            simp only [spacedOK, Bool.and_eq_true, decide_eq_true_eq] at hsp ⊢
            exact hsp.2
      have hwt : t - w ≤ RATE_LIMIT_WINDOW := hwin t (by simp)
      have hwinTail : ∀ t2 ∈ ts, t2 - w ≤ RATE_LIMIT_WINDOW := by
        intro t2 ht2; exact hwin t2 (by simp [ht2])
      rcases lt_or_ge c RATE_LIMIT_MESSAGES with hc | hc
      · -- admitted: the counter has room
        have hstep := isAllowed_underCap rl uid t l c w hrl (by omega) hwt hc
        have hrl2 : (fun u => if u = uid then
            some { LastMessage := t, MessageCount := c + 1, WindowStart := w }
            else rl u) uid =
            some { LastMessage := t, MessageCount := c + 1, WindowStart := w } := by
          simp
        have hrec := ih (fun u => if u = uid then
            some { LastMessage := t, MessageCount := c + 1, WindowStart := w }
            else rl u) uid t (c+1) w hrl2 (by omega) (by omega) hwinTail hspTail
        have hk : (RATE_LIMIT_MESSAGES - c).toNat =
            (RATE_LIMIT_MESSAGES - (c+1)).toNat + 1 := by omega
        simp only [runLimiter, hstep]
        rw [hk]
        simp only [List.take_succ_cons, List.drop_succ_cons, List.map_cons,
          List.cons_append]
        exact congrArg _ hrec
      · -- at the cap: denied with the remaining window time
        have hstep := isAllowed_limited rl uid t l c w hrl (by omega) hwt hc
        have hspKeep : spacedOK (l :: ts) = true := by
          cases ts with
          | nil => simp [spacedOK]
          | cons t2 ts2 =>
              simp only [spacedOK, Bool.and_eq_true, decide_eq_true_eq] at hsp ⊢
              obtain ⟨hs1, hs2, hs3⟩ := hsp
              exact ⟨by omega, hs3⟩
        have hrl2 : (fun u => if u = uid then
            some { LastMessage := l, MessageCount := c, WindowStart := w }
            else rl u) uid =
            some { LastMessage := l, MessageCount := c, WindowStart := w } := by
          simp
        have hrec := ih (fun u => if u = uid then
            some { LastMessage := l, MessageCount := c, WindowStart := w }
            else rl u) uid l c w hrl2 hc0 hc10 hwinTail hspKeep
        have hk : (RATE_LIMIT_MESSAGES - c).toNat = 0 := by omega
        simp only [runLimiter, hstep]
        rw [hk] at hrec ⊢
        simp only [List.take_zero, List.drop_zero, List.map_nil,
          List.nil_append, List.map_cons]
        exact congrArg _ hrec

/-- Counting helper: a constant-`allowed` map has one `allowed` per
element. -/
theorem count_allowed_const (l : List Int) :
    ((l.map fun _ => RLReply.allowed).count RLReply.allowed) = l.length := by
  induction l with
  | nil => rfl
  | cons a l ih => simp [List.count_cons, ih]

/-- Counting helper: a map to `limitExceeded` replies holds no `allowed`. -/
theorem count_allowed_limited (w : Int) (l : List Int) :
    ((l.map fun t => RLReply.limitExceeded
      (RATE_LIMIT_WINDOW - (t - w))).count RLReply.allowed) = 0 := by
  induction l with
  | nil => rfl
  | cons a l ih => simp [List.count_cons, ih]

/-- Claim C1, amended (the code keeps a fixed window, reset only once more
than 60 s have passed since its start — not a rolling window): starting
from a fresh user, for attempts spaced at least 1 second apart and all
within 60 seconds of the first, the first 10 attempts are admitted and
every later attempt in that window is denied with the rate-limit reason
carrying the remaining window time `RATE_LIMIT_WINDOW - (t - t0)`; the
number of admits is `min (n + 1) 10`, so with 11 or more attempts exactly
10 succeed and the 11th is denied with the remaining window time. -/
theorem rateLimiter_fixedWindow (t0 : Int) (ts : List Int)
    (hwin : ∀ t ∈ ts, t - t0 ≤ RATE_LIMIT_WINDOW)
    (hsp : spacedOK (t0 :: ts) = true) :
    replies (t0 :: ts) =
      .allowed :: ((ts.take 9).map (fun _ => RLReply.allowed) ++
        (ts.drop 9).map fun t =>
          RLReply.limitExceeded (RATE_LIMIT_WINDOW - (t - t0))) ∧
    (replies (t0 :: ts)).count .allowed = min (ts.length + 1) 10 := by
  have hfresh := isAllowed_fresh emptyRateLimiter 1 t0 rfl
  have hrl1 : (fun u => if u = 1 then
      some { LastMessage := t0, MessageCount := 1, WindowStart := t0 }
      else emptyRateLimiter u) 1 =
      some { LastMessage := t0, MessageCount := 1, WindowStart := t0 } := by
    simp
  have hrec := runLimiter_full_window ts (fun u => if u = 1 then
      some { LastMessage := t0, MessageCount := 1, WindowStart := t0 }
      else emptyRateLimiter u) 1 t0 1 t0 hrl1 (by omega)
    (by norm_num [RATE_LIMIT_MESSAGES]) hwin hsp
  have htoNat : (RATE_LIMIT_MESSAGES - 1).toNat = 9 := rfl
  rw [htoNat] at hrec
  have hmain : replies (t0 :: ts) =
      .allowed :: ((ts.take 9).map (fun _ => RLReply.allowed) ++
        (ts.drop 9).map fun t =>
          RLReply.limitExceeded (RATE_LIMIT_WINDOW - (t - t0))) := by
    simp only [replies, runLimiter, hfresh]
    exact congrArg _ hrec
  refine ⟨hmain, ?_⟩
  rw [hmain]
  simp only [List.count_cons, List.count_append, count_allowed_const,
    count_allowed_limited, List.length_take]
  simp
  omega

/-- An attempt more than a full window after the window start resets the
window and is admitted with count 1. -/
theorem isAllowed_reset (rl : RateLimiterMap) (uid t : Int) (u : UserLimiter)
    (h : rl uid = some u)
    (hf : MIN_MESSAGE_INTERVAL ≤ t - u.LastMessage)
    (hw : RATE_LIMIT_WINDOW < t - u.WindowStart) :
    IsAllowed rl uid t =
      (.allowed, fun x => if x = uid then
        some { LastMessage := t, MessageCount := 1, WindowStart := t }
        else rl x) := by
  have h1 : ¬ (t - u.LastMessage < MIN_MESSAGE_INTERVAL) := by omega
  have h2 : t - u.WindowStart > RATE_LIMIT_WINDOW := hw
  have h3 : ¬ (RATE_LIMIT_MESSAGES ≤ (0:Int)) := by
    norm_num [RATE_LIMIT_MESSAGES]
  simp [IsAllowed, h, h1, h2, h3]

/-- Claim C9: an attempt made less than 1 second after the user's recorded
last message is denied with the "too fast" reason regardless of the window
count; no denial of any kind updates the user's map entry, so the minimum
interval is measured against the last admitted message; and the concrete
scenario holds — admitted at t = 0, denied "too fast" at t = 0.5 s,
admitted at t = 1.5 s. -/
theorem minInterval_denial :
    (∀ (rl : RateLimiterMap) (uid now : Int) (u : UserLimiter),
      rl uid = some u → now - u.LastMessage < MIN_MESSAGE_INTERVAL →
      IsAllowed rl uid now = (.tooFast, rl)) ∧
    (∀ (rl : RateLimiterMap) (uid now : Int) (reply : RLReply)
      (rl' : RateLimiterMap), IsAllowed rl uid now = (reply, rl') →
      reply ≠ .allowed → rl' = rl) ∧
    replies [0, 500000000, 1500000000] = [.allowed, .tooFast, .allowed] := by
  refine ⟨fun rl uid now u h hf => isAllowed_tooFast rl uid now u h hf,
    ?_, by decide⟩
  intro rl uid now reply rl' hstep hr
  cases hmem : rl uid with
  | none =>
      rw [isAllowed_fresh rl uid now hmem] at hstep
      injection hstep with h1 h2
      exact absurd h1.symm hr
  | some u =>
      by_cases hf : now - u.LastMessage < MIN_MESSAGE_INTERVAL
      · rw [isAllowed_tooFast rl uid now u hmem hf] at hstep
        injection hstep with h1 h2
        exact h2.symm
      · by_cases hw : RATE_LIMIT_WINDOW < now - u.WindowStart
        · rw [isAllowed_reset rl uid now u hmem (by omega) hw] at hstep
          injection hstep with h1 h2
          exact absurd h1.symm hr
        · by_cases hc : RATE_LIMIT_MESSAGES ≤ u.MessageCount
          · rw [isAllowed_limited rl uid now u.LastMessage u.MessageCount
              u.WindowStart hmem (by omega) (by omega) hc] at hstep
            injection hstep with h1 h2
            rw [← h2]
            funext x
            by_cases hx : x = uid
            · simp [hx, hmem]
            · simp [hx]
          · rw [isAllowed_underCap rl uid now u.LastMessage u.MessageCount
              u.WindowStart hmem (by omega) (by omega) (by omega)] at hstep
            injection hstep with h1 h2
            exact absurd h1.symm hr

/-- Witness for `minInterval_denial`: user 7, last admitted at 0, is
denied "too fast" at t = 0.6 s with the map unchanged. -/
theorem minInterval_denial_witness :
    IsAllowed rlUser7 7 600000000 = (.tooFast, rlUser7) :=
  minInterval_denial.1 rlUser7 7 600000000
    { LastMessage := 0, MessageCount := 1, WindowStart := 0 }
    (by decide) (by decide)

/-- Claim C1, counterexample to the claim as stated: 20 attempts spaced at
least 1 second apart (one at 0 s, then one per second from 52 s to 70 s)
are all admitted, yet 19 of them lie inside the one rolling 60-second
window [52 s, 112 s) — not "exactly 10", and the 11th attempt inside that
window was admitted rather than denied. The fixed window resets at 61 s,
so a burst at the end of one fixed window and the start of the next
exceeds 10 admits per rolling 60-second span. -/
theorem rateLimiter_rollingWindow_cex :
    spacedOK cexTimes = true ∧
    admittedTimes emptyRateLimiter 1 cexTimes = cexTimes ∧
    (cexTimes.filter fun t =>
      52000000000 ≤ t ∧ t < 112000000000).length = 19 := by decide

/-- Witness for `rateLimiter_fixedWindow` at a concrete trace: attempts at
0 s and every 2 s through 22 s; ten admits, then denials carrying the
remaining window time. -/
theorem rateLimiter_fixedWindow_witness :
    replies (0 :: witnessTimes) =
      .allowed :: ((witnessTimes.take 9).map (fun _ => RLReply.allowed) ++
        (witnessTimes.drop 9).map fun t =>
          RLReply.limitExceeded (RATE_LIMIT_WINDOW - (t - 0))) ∧
    (replies (0 :: witnessTimes)).count .allowed =
      min (witnessTimes.length + 1) 10 :=
  rateLimiter_fixedWindow 0 witnessTimes (by decide) (by decide)

/-- Claim C10: once a per-category scheduler loop observes the
cancellation signal it returns, and no further `DispatchNotification`
call begins — select resolutions after the observed `ctxDone` contribute
nothing to the run; each dispatch started by an earlier tick already ran
to completion inside its own loop iteration. -/
theorem scheduler_no_dispatch_after_cancel (env : DispatchEnv) (nt : String)
    (pre post : List SchedEvent) :
    runNotificationSchedule env nt (pre ++ SchedEvent.ctxDone :: post) =
      runNotificationSchedule env nt (pre ++ [SchedEvent.ctxDone]) := by
  induction pre with
  | nil => rfl
  | cons e pre ih =>
      cases e with
      | ctxDone => rfl
      | tick =>
          simp only [List.cons_append, runNotificationSchedule]
          exact congrArg _ ih

/-- Claim C4, amended: the effective interval of the due query agrees
with the claim's rule (preference interval when > 0, else the category
default) whenever the preference interval is nonnegative — positive
overrides, zero is omitted from the stored jsonb and falls back to the
default — but a negative preference interval is serialized and COALESCE
uses it as-is, where the claim says the default should apply. -/
theorem effectiveInterval_override (cats : List NotificationType)
    (sub : Subscription) :
    (0 ≤ sub.Preferences.Interval →
      effectiveInterval cats sub = specEffectiveInterval cats sub) ∧
    (sub.Preferences.Interval < 0 →
      effectiveInterval cats sub = some sub.Preferences.Interval) := by
  constructor
  · intro h
    by_cases h0 : sub.Preferences.Interval = 0
    · simp [effectiveInterval, specEffectiveInterval, jsonbInterval, h0,
        Option.orElse]
    · have hpos : 0 < sub.Preferences.Interval := by omega
      simp [effectiveInterval, specEffectiveInterval, jsonbInterval, h0,
        hpos, Option.orElse]
  · intro h
    have h0 : sub.Preferences.Interval ≠ 0 := by omega
    simp [effectiveInterval, jsonbInterval, h0, Option.orElse]

/-- Claim C4, counterexample to the claim as stated: a preference
interval of -5 is present in the jsonb, so the code's effective interval
is -5 and the subscription is due 30 minutes after its last notification,
while the claim's rule yields the 60-minute category default, under which
it is not due. -/
theorem effectiveInterval_negative_cex :
    subNeg.Preferences.Interval = -5 ∧
    effectiveInterval [catCustom] subNeg = some (-5) ∧
    specEffectiveInterval [catCustom] subNeg = some 60 ∧
    isDue [catCustom] 100000 subNeg = true ∧
    specIsDue [catCustom] 100000 subNeg = false := by decide

/-- Witness for `effectiveInterval_override`: with a zero preference
interval the code agrees with the spec's rule; with -5 it returns -5. -/
theorem effectiveInterval_override_witness :
    effectiveInterval [catCustom] subW = specEffectiveInterval [catCustom] subW ∧
    effectiveInterval [catCustom] subNeg = some (-5) :=
  ⟨(effectiveInterval_override [catCustom] subW).1 (by decide),
   (effectiveInterval_override [catCustom] subNeg).2 (by decide)⟩

/-- Claim C7: `ValidateMessageString` fails exactly on the empty message
or one longer than the 4096-byte channel limit, and a message failing it
is logged with status "failed" and the validation error is returned before
any `SendMessage` call — the event trace is exactly the one failed-log
entry. -/
theorem validation_failure_never_sent (msg : String) :
    ((ValidateMessageString msg ≠ none) ↔
      (msg.utf8ByteSize = 0 ∨ msg.utf8ByteSize > MAX_MESSAGE_LENGTH)) ∧
    (∀ (se : SubEnv) (sub : Subscription) (err : GoError),
      ValidateMessageString msg = some err →
      sendNotificationToSubscription se sub msg =
        (some err,
         [.logNotification sub.ID msg "failed" (some (errString err))])) := by
  constructor
  · by_cases h0 : msg.utf8ByteSize = 0 <;>
      by_cases hbig : msg.utf8ByteSize > MAX_MESSAGE_LENGTH <;>
        simp [ValidateMessageString, h0, hbig]
  · intro se sub err hv
    simp [sendNotificationToSubscription, hv]

/-- Witness for `validation_failure_never_sent`: the empty message is
logged "failed" and nothing is sent. -/
theorem validation_failure_never_sent_witness :
    sendNotificationToSubscription seOK subW "" =
      (some (.custom "message cannot be empty"),
       [.logNotification 5 "" "failed" (some "message cannot be empty")]) :=
  (validation_failure_never_sent "").2 seOK subW
    (.custom "message cannot be empty") (by decide)

/-- Claim C8: when the message validates and the Telegram send succeeds,
`sendNotificationToSubscription` returns nil whatever the success-log
write returned — a log-write error is printed, never escalated to fail
the delivered notification. -/
theorem logFailure_not_escalated (se : SubEnv) (sub : Subscription)
    (msg : String) (e : GoError) (hv : ValidateMessageString msg = none)
    (hs : se.sendErr = none) (_hl : se.logErr = some e) :
    sendNotificationToSubscription se sub msg =
      (none, [.sendMessage sub.ChatID msg,
        .logNotification sub.ID msg "sent" none]) := by
  simp [sendNotificationToSubscription, hv, hs]

/-- Witness for `logFailure_not_escalated`: with a failing log store the
pipeline still returns nil after a successful send. -/
theorem logFailure_not_escalated_witness :
    sendNotificationToSubscription seLogFail subW "hello" =
      (none, [.sendMessage 77 "hello",
        .logNotification 5 "hello" "sent" none]) :=
  logFailure_not_escalated seLogFail subW "hello" (.custom "db down")
    (by decide) (by decide) (by decide)

/-- Claim C2, amended: `MarkNotified` is called if and only if content
generation succeeded, the generated message passed validation, and the
delivery send succeeded — the log-write outcome plays no role (the
original claim required the log write to succeed as well, which the code
contradicts); and on a validation failure the trace is exactly the
failed-log entry with no `MarkNotified`, so `last_notified_at` stays
untouched and the subscription stays eligible. -/
theorem markNotified_iff_delivery (se : SubEnv) (sub : Subscription)
    (code : String) :
    (DispatchEvent.markNotified sub.ID ∈
        (processSubscriptionNotification se sub code).2 ↔
      ∃ content, GetNotificationContent se code = .ok content ∧
        ValidateMessageString content = none ∧ se.sendErr = none) ∧
    (∀ (content : String) (err : GoError),
      GetNotificationContent se code = .ok content →
      ValidateMessageString content = some err →
      (processSubscriptionNotification se sub code).2 =
        [.logNotification sub.ID content "failed" (some (errString err))]) := by
  cases hg : GetNotificationContent se code with
  | error e =>
      constructor
      · simp [processSubscriptionNotification, hg]
      · intro content err hok hv
        exact absurd hok (by simp)
  | ok content =>
      cases hv : ValidateMessageString content with
      | some err =>
          constructor
          · simp [processSubscriptionNotification,
              sendNotificationToSubscription, hg, hv]
          · intro content2 err2 hok hv2
            have hc : content = content2 := by injection hok
            subst hc
            rw [hv] at hv2
            injection hv2 with herr
            subst herr
            simp [processSubscriptionNotification,
              sendNotificationToSubscription, hg, hv]
      | none =>
          cases hs : se.sendErr with
          | some e =>
              constructor
              · simp [processSubscriptionNotification,
                  sendNotificationToSubscription, hg, hv, hs]
              · intro content2 err2 hok hv2
                have hc : content = content2 := by injection hok
                subst hc
                rw [hv] at hv2
                exact absurd hv2 (by simp)
          | none =>
              constructor
              · cases hm : se.markErr with
                | some e =>
                    simp [processSubscriptionNotification,
                      sendNotificationToSubscription, hg, hv, hs, hm]
                | none =>
                    simp [processSubscriptionNotification,
                      sendNotificationToSubscription, hg, hv, hs, hm]
              · intro content2 err2 hok hv2
                have hc : content = content2 := by injection hok
                subst hc
                rw [hv] at hv2
                exact absurd hv2 (by simp)

/-- Claim C2, counterexample to "advanced iff delivery and the log write
succeeded": with a failing log store the success-log write fails, yet the
pipeline still calls `MarkNotified` and returns nil. -/
theorem markNotified_despite_logFailure_cex :
    seLogFail.logErr = some (.custom "db down") ∧
    processSubscriptionNotification seLogFail subW "custom" =
      (none, [.sendMessage 77 "hello",
        .logNotification 5 "hello" "sent" none, .markNotified 5]) := by
  decide

/-- Witness for `markNotified_iff_delivery`: with all collaborators
succeeding, `MarkNotified` is called. -/
theorem markNotified_iff_delivery_witness :
    DispatchEvent.markNotified 5 ∈
      (processSubscriptionNotification seOK subW "custom").2 :=
  (markNotified_iff_delivery seOK subW "custom").1.mpr
    ⟨"hello", rfl, by decide, rfl⟩

/-- Claim C5: the due query returns exactly the subscriptions of the
category satisfying the due predicate — every active subscription of the
category with NULL `last_notified_at` is included regardless of any
interval; an active one with `last_notified_at = last` and effective
interval `eff` minutes is included iff `60 * eff ≤ now - last`; and every
returned row is an active row of the category that is NULL-fresh or past
its effective interval. -/
theorem getDue_membership (env : DispatchEnv) (tid : Int)
    (subs : List Subscription)
    (hq : GetDueForNotification env tid = .ok subs) :
    (∀ sub ∈ env.subscriptions, sub.NotificationTypeID = tid →
      sub.IsActive = true → sub.LastNotifiedAt = none → sub ∈ subs) ∧
    (∀ sub ∈ env.subscriptions, ∀ (last eff : Int),
      sub.NotificationTypeID = tid → sub.IsActive = true →
      sub.LastNotifiedAt = some last →
      effectiveInterval env.categories sub = some eff →
      (sub ∈ subs ↔ 60 * eff ≤ env.now - last)) ∧
    (∀ sub ∈ subs, sub ∈ env.subscriptions ∧
      sub.NotificationTypeID = tid ∧ sub.IsActive = true ∧
      (sub.LastNotifiedAt = none ∨
        ∃ (last eff : Int), sub.LastNotifiedAt = some last ∧
          effectiveInterval env.categories sub = some eff ∧
          60 * eff ≤ env.now - last)) := by
  have hsubs : subs = env.subscriptions.filter (fun sub =>
      sub.NotificationTypeID = tid && isDue env.categories env.now sub) := by
    unfold GetDueForNotification at hq
    cases hdue : env.dueErr with
    | some e => rw [hdue] at hq; exact absurd hq (by simp)
    | none =>
        rw [hdue] at hq
        injection hq with h
        exact h.symm
  subst hsubs
  refine ⟨?_, ?_, ?_⟩
  · intro sub hmem htid hact hlast
    rw [List.mem_filter]
    refine ⟨hmem, ?_⟩
    simp [htid, isDue, hact, hlast]
  · intro sub hmem last eff htid hact hlast heff
    rw [List.mem_filter]
    simp only [hmem, true_and, htid, isDue, hact, hlast, heff,
      Bool.and_eq_true, decide_eq_true_eq, true_and]
    omega
  · intro sub hmem
    rw [List.mem_filter] at hmem
    obtain ⟨h1, h2⟩ := hmem
    rw [Bool.and_eq_true] at h2
    obtain ⟨htid, hdue2⟩ := h2
    rw [decide_eq_true_eq] at htid
    unfold isDue at hdue2
    rw [Bool.and_eq_true] at hdue2
    obtain ⟨hact, hrest⟩ := hdue2
    refine ⟨h1, htid, hact, ?_⟩
    cases hlast : sub.LastNotifiedAt with
    | none => exact Or.inl rfl
    | some last =>
        cases heff : effectiveInterval env.categories sub with
        | none =>
            rw [hlast, heff] at hrest
            simp at hrest
        | some eff =>
            simp only [hlast, heff, decide_eq_true_eq] at hrest
            exact Or.inr ⟨last, eff, rfl, rfl, by omega⟩

/-- Witness for `getDue_membership`: the never-notified subscription is
returned; the recently notified one is returned iff its 60-minute default
interval has elapsed (it has not). -/
theorem getDue_membership_witness :
    subW ∈ [subW] ∧
    ((subRecent ∈ [subW]) ↔ 60 * 60 ≤ (100000:Int) - 99000) :=
  ⟨(getDue_membership envC5 1 [subW] rfl).1 subW (by decide) rfl rfl rfl,
   (getDue_membership envC5 1 [subW] rfl).2.1 subRecent (by decide)
     99000 60 rfl rfl rfl rfl⟩

/-- The dispatch loop's trace is the concatenation of the per-subscription
pipeline traces. -/
theorem dispatchLoop_events (env : DispatchEnv) (code : String)
    (subs : List Subscription) :
    (dispatchLoop env code subs).2 =
      (subs.map fun sub =>
        (processSubscriptionNotification (env.subEnv sub.ID) sub code).2).flatten := by
  induction subs with
  | nil => rfl
  | cons s rest ih => simp [dispatchLoop, ih]

/-- Claim C6: when the due query succeeds `DispatchNotification` returns
nil — never an error from individual subscription failures — and its event
trace is the concatenation of every due subscription's own pipeline trace,
each computed from that subscription's collaborator outcomes alone, so one
subscription's failure cannot keep the others from being processed and
logged. -/
theorem dispatch_failure_isolation (env : DispatchEnv) (code : String)
    (subs : List Subscription)
    (h : GetDueSubscriptions env code = .ok subs) :
    DispatchNotification env code = (none,
      (subs.map fun sub =>
        (processSubscriptionNotification (env.subEnv sub.ID) sub code).2).flatten) := by
  cases subs with
  | nil => simp [DispatchNotification, h]
  | cons s rest =>
      simp only [DispatchNotification, h, List.isEmpty_cons, Bool.false_eq_true,
        if_false]
      rw [dispatchLoop_events]

/-- Witness for `dispatch_failure_isolation`: with the first
subscription's send failing, the call still returns nil and both
subscriptions' traces appear. -/
theorem dispatch_failure_isolation_witness :
    DispatchNotification envC6 "custom" =
      (none, ([subW, subB].map fun sub =>
        (processSubscriptionNotification (envC6.subEnv sub.ID) sub
          "custom").2).flatten) :=
  dispatch_failure_isolation envC6 "custom" [subW, subB] rfl

/-- Claim C3, amended: an unknown category code is swallowed, not
surfaced — the record-not-found lookup yields an empty due list and
`DispatchNotification` returns nil having attempted no dispatch work; the
category's `is_active` flag is never consulted, so a found category,
inactive or not, proceeds to the due query and the per-subscription loop;
an error is returned only when the category lookup or the due query fails
with a store error. -/
theorem dispatch_category_preconditions :
    (∀ (env : DispatchEnv) (code : String),
      GetByCode env code = .error .recordNotFound →
      DispatchNotification env code = (none, [])) ∧
    (∀ (env : DispatchEnv) (code : String) (nt : NotificationType),
      GetByCode env code = .ok nt → env.dueErr = none →
      DispatchNotification env code = (none,
        (dispatchLoop env code (env.subscriptions.filter fun sub =>
          sub.NotificationTypeID = nt.ID &&
            isDue env.categories env.now sub)).2)) ∧
    (∀ (env : DispatchEnv) (code : String) (e : GoError),
      (DispatchNotification env code).1 = some e →
      env.categoriesErr ≠ none ∨ env.dueErr ≠ none) := by
  have ha : ∀ (env : DispatchEnv) (code : String),
      GetByCode env code = .error .recordNotFound →
      DispatchNotification env code = (none, []) := by
    intro env code h
    simp [DispatchNotification, GetDueSubscriptions, h]
  have hb : ∀ (env : DispatchEnv) (code : String) (nt : NotificationType),
      GetByCode env code = .ok nt → env.dueErr = none →
      DispatchNotification env code = (none,
        (dispatchLoop env code (env.subscriptions.filter fun sub =>
          sub.NotificationTypeID = nt.ID &&
            isDue env.categories env.now sub)).2) := by
    intro env code nt h hdue
    simp only [DispatchNotification, GetDueSubscriptions, h,
      GetDueForNotification, hdue]
    cases hF : env.subscriptions.filter (fun sub =>
        sub.NotificationTypeID = nt.ID &&
          isDue env.categories env.now sub) with
    | nil => simp [dispatchLoop]
    | cons s rest => simp
  refine ⟨ha, hb, ?_⟩
  intro env code e h
  cases hcat : env.categoriesErr with
  | some e2 => exact Or.inl (by simp [hcat])
  | none =>
      cases hdue : env.dueErr with
      | some e2 => exact Or.inr (by simp [hdue])
      | none =>
          exfalso
          cases hfind : env.categories.find? (fun nt => nt.Code = code) with
          | none =>
              have hbc : GetByCode env code = .error .recordNotFound := by
                simp [GetByCode, hcat, hfind]
              rw [ha env code hbc] at h
              simp at h
          | some nt =>
              have hbc : GetByCode env code = .ok nt := by
                simp [GetByCode, hcat, hfind]
              rw [hb env code nt hbc hdue] at h
              simp at h

/-- Claim C3, counterexample to the claim as stated: with no matching
category row `DispatchNotification` returns nil (no error, no work); with
an inactive "custom" category and one due subscription it returns nil and
performs the full send/log/mark pipeline — the claimed error-and-no-work
behavior holds in neither case. -/
theorem dispatch_category_preconditions_cex :
    DispatchNotification envUnknown "custom" = (none, []) ∧
    catCustomInactive.IsActive = false ∧
    GetByCode envInactive "custom" = .ok catCustomInactive ∧
    DispatchNotification envInactive "custom" =
      (none, [.sendMessage 77 "hello",
        .logNotification 5 "hello" "sent" none, .markNotified 5]) :=
  ⟨by decide, by decide, rfl, by decide⟩

/-- Witness for `dispatch_category_preconditions`: the unknown code
"nope" yields nil and no events; the inactive category dispatches its due
subscription. -/
theorem dispatch_category_preconditions_witness :
    DispatchNotification envUnknown "nope" = (none, []) ∧
    DispatchNotification envInactive "custom" =
      (none, (dispatchLoop envInactive "custom"
        (envInactive.subscriptions.filter fun sub =>
          sub.NotificationTypeID = catCustomInactive.ID &&
            isDue envInactive.categories envInactive.now sub)).2) :=
  ⟨dispatch_category_preconditions.1 envUnknown "nope" rfl,
   dispatch_category_preconditions.2.1 envInactive "custom"
     catCustomInactive rfl rfl⟩
